import Mathlib

/-!
Shallow embedding of the `moex_fastapi` MOEX ISS proxy service and proofs
about its upstream client, aggregation endpoint, metrics transformation,
Kafka publishing, router registration and ClickHouse read path.

Sources embedded:
* `app/dependencies.py`  — `MoexISSClient.fetch_raw` with its TTL cache;
* `app/main.py`          — `process_and_analyze_data` endpoint and `process_metrics`;
* `app/routers/charts.py`— `get_candles_chart` read query;
* `app/main.py` router registration (`app.include_router`).

Python floats on the values occurring here are modelled by `ℚ`; a separate
`PF` type models the numpy/pandas float results (which admit `inf`/`nan`
instead of raising on division by zero). Machine time is `Nat` seconds.
-/

namespace MoexProxy

/-- A scalar query-parameter value as it occurs in the Python dicts passed to
`fetch_raw` (strings for dates, ints for interval/limit/depth/start). -/
inductive PVal
  | s (v : String)
  | i (v : Int)
deriving DecidableEq, Repr

/-- A Python dict of request parameters, as an insertion-ordered association
list with distinct keys (the shape every caller in the repo passes). -/
abbrev Params := List (String × PVal)

/-- Raw upstream payload (`response.json()` of the ISS answer), kept abstract
as its serialized text. -/
abbrev Payload := String

/-- Ordered insertion used by the insertion sort below (sorting by key;
keys of a Python dict are distinct, so comparing keys alone is enough). -/
def insertByKey (p : String × PVal) : Params → Params
  | [] => [p]
  | q :: qs => if p.1 ≤ q.1 then p :: q :: qs else q :: insertByKey p qs

/-- `sorted(params.items())` of `dependencies.py` line 57. -/
def sortedItems (params : Params) : Params :=
  params.foldr insertByKey []

/-- The cache key `f"{endpoint}:{str(sorted(params.items()))}"` of
`dependencies.py` line 57.  The source renders the pair to a string; the
rendering is injective on the `(endpoint, sorted items)` data used in this
repository, so we keep the pair itself. -/
def cache_key (endpoint : String) (params : Params) : String × Params :=
  (endpoint, sortedItems params)

/-- One entry of the client's `cachetools.TTLCache` (value plus the time the
entry was stored; `ttl = 300`). -/
structure CacheEntry where
  key : String × Params
  val : Payload
  insertedAt : Nat
deriving DecidableEq, Repr

/-- `ttl=300` of `TTLCache(maxsize=100, ttl=300)`, `dependencies.py` line 28. -/
def ttlSeconds : Nat := 300

/-- The mutable state of `MoexISSClient`: its TTL cache.  `maxsize=100`
(oldest-entry displacement) is not modelled because no trace considered here
ever holds more than a handful of keys, far below the capacity. -/
structure ClientState where
  cache : List CacheEntry
deriving DecidableEq, Repr

/-- A cache entry is live at `now` iff its TTL has not elapsed
(`cachetools` expires an entry once `timer() ≥ stored + ttl`). -/
def entryFresh (now : Nat) (e : CacheEntry) : Bool :=
  now < e.insertedAt + ttlSeconds

/-- `cache_key in self.cache` / `self.cache[cache_key]` of `dependencies.py`
lines 60-61: a lookup that ignores expired entries. -/
def cacheLookup (now : Nat) (k : String × Params) (cache : List CacheEntry) :
    Option Payload :=
  match cache.find? (fun e => decide (e.key = k) && entryFresh now e) with
  | some e => some e.val
  | none => none

/-- `self.cache[cache_key] = data` of `dependencies.py` line 77: store the
payload under the key, replacing any previous entry for the same key. -/
def cacheInsert (now : Nat) (k : String × Params) (v : Payload)
    (cache : List CacheEntry) : List CacheEntry :=
  ⟨k, v, now⟩ :: cache.filter (fun e => !decide (e.key = k))

/-- The outcome of the single `self.client.get(url, params=params)` call:
a 2xx answer with a JSON body, a non-2xx answer (on which
`raise_for_status` raises `httpx.HTTPStatusError`), or a transport-level
exception (timeout, DNS, connection refused). -/
inductive HttpOutcome
  | success (payload : Payload)
  | httpStatus (status : Nat) (body : String)
  | transport (cause : String)
deriving DecidableEq, Repr

/-- The Python exception values observable from the embedded code.
`exception` is the bare `Exception(msg)` that `fetch_raw` raises in both of
its failure branches; `httpException` is `fastapi.HTTPException`;
`zeroDivision` is `ZeroDivisionError`.  The constructors
`upstreamHTTPError` and `upstreamTransportError` are NOT produced anywhere
by the source: they transcribe the spec's claimed typed error taxonomy
(`UpstreamHTTPError{statusCode, bodyExcerpt}` / `UpstreamTransportError{cause}`)
so that the claim "the client fails with these distinct subtypes" can be
compared against what the code actually raises. -/
inductive PyError
  | exception (msg : String)
  | httpException (status : Nat) (detail : String)
  | zeroDivision
  | upstreamHTTPError (statusCode : Nat) (bodyExcerpt : String)
  | upstreamTransportError (cause : String)
deriving DecidableEq, Repr

/-- `str(e)` on the exceptions above, as used by the `except` handlers of
`main.py` (FastAPI `HTTPException.__str__` renders `"{code}: {detail}"`;
`ZeroDivisionError` on Python floats renders `"float division by zero"`). -/
def pyErrStr : PyError → String
  | .exception m => m
  | .httpException s d => toString s ++ ": " ++ d
  | .zeroDivision => "float division by zero"
  | .upstreamHTTPError s b => toString s ++ ": " ++ b
  | .upstreamTransportError c => c

/-- Whether the error value is the bare `Exception` of the source. -/
def isBareException : PyError → Bool
  | .exception _ => true
  | _ => false

/-- Whether the error value is the spec's typed `UpstreamHTTPError`. -/
def isUpstreamHTTPError : PyError → Bool
  | .upstreamHTTPError _ _ => true
  | _ => false

/-- Whether the error value is the spec's typed `UpstreamTransportError`. -/
def isUpstreamTransportError : PyError → Bool
  | .upstreamTransportError _ => true
  | _ => false

/-- Decidable equality on `Except`, needed to evaluate the results below. -/
instance instDecEqExcept {ε α : Type} [DecidableEq ε] [DecidableEq α] :
    DecidableEq (Except ε α) := fun a b =>
  match a, b with
  | .ok x, .ok y =>
      if h : x = y then .isTrue (congrArg Except.ok h)
      else .isFalse (fun hc => h (Except.ok.inj hc))
  | .error x, .error y =>
      if h : x = y then .isTrue (congrArg Except.error h)
      else .isFalse (fun hc => h (Except.error.inj hc))
  | .ok _, .error _ => .isFalse (fun hc => Except.noConfusion hc)
  | .error _, .ok _ => .isFalse (fun hc => Except.noConfusion hc)

/-- What one `fetch_raw` call produces: the returned value or raised
exception, the client state after the call, how many network GETs the call
issued, and the caller's `params` dict after the call (the source mutates it
in place). -/
structure FetchResult where
  outcome : Except PyError Payload
  state : ClientState
  networkCalls : Nat
  paramsAfter : Params
deriving DecidableEq, Repr

/-- `"limit" in params` of `dependencies.py` line 67. -/
def hasKey (k : String) (params : Params) : Bool :=
  params.any (fun p => p.1 == k)

/-- Python `text[:n]`: the first `n` characters of a string. -/
def strTake (s : String) (n : Nat) : String := ⟨s.data.take n⟩

/-- The message of `Exception(f"ISS API error: {status}" + " - " + body[:200])`
raised on a non-2xx answer (`dependencies.py` lines 82-85; the body excerpt
is appended only when the body is non-empty). -/
def httpErrMsg (status : Nat) (body : String) : String :=
  "ISS API error: " ++ toString status ++
    (if body ≠ "" then " - " ++ strTake body 200 else "")

/-- The message of `Exception(f"Failed to fetch from ISS: {str(e)}")`
(`dependencies.py` line 87). -/
def transportErrMsg (cause : String) : String :=
  "Failed to fetch from ISS: " ++ cause

/-- The cache-miss continuation of `fetch_raw` (`dependencies.py`
lines 63-87): inject `limit=100` if absent (mutating the caller's dict),
issue the GET, store a successful payload in the cache, and convert the
two failure shapes into bare `Exception`s with the messages above. -/
def fetchMiss (st : ClientState) (now : Nat) (key : String × Params)
    (params : Params) (use_cache : Bool) (net : HttpOutcome) : FetchResult :=
  let params1 := if hasKey "limit" params then params
                 else params ++ [("limit", PVal.i 100)]
  match net with
  | .success payload =>
      let st1 := if use_cache then ⟨cacheInsert now key payload st.cache⟩ else st
      ⟨.ok payload, st1, 1, params1⟩
  | .httpStatus status body =>
      ⟨.error (.exception (httpErrMsg status body)), st, 1, params1⟩
  | .transport cause =>
      ⟨.error (.exception (transportErrMsg cause)), st, 1, params1⟩

/-- `MoexISSClient.fetch_raw` (`dependencies.py` lines 33-87).  `now` is the
wall clock at the call, `net` the environment's answer to the (at most one)
GET the call may issue. -/
def fetch_raw (st : ClientState) (now : Nat) (endpoint : String)
    (params : Params) (use_cache : Bool) (net : HttpOutcome) : FetchResult :=
  let key := cache_key endpoint params
  if use_cache then
    match cacheLookup now key st.cache with
    | some v => ⟨.ok v, st, 0, params⟩
    | none => fetchMiss st now key params use_cache net
  else fetchMiss st now key params use_cache net

/-! ## The `/process_and_analyze` endpoint (`main.py` lines 184-282) -/

/-- One raw candle row `candle` of the ISS answer, indexed in `main.py`
lines 237-244 as `[open, close, high, low, value, volume, begin, end]`.
`begin`/`end` are Lean keywords, so those two fields are named
`begin_dt`/`end_dt`. -/
structure Candle where
  open_price : ℚ
  close_price : ℚ
  high : ℚ
  low : ℚ
  value : ℚ
  volume : ℚ
  begin_dt : String
  end_dt : String
deriving DecidableEq, Repr

/-- The `processed_candle` dict built in `main.py` lines 253-263. -/
structure ProcessedCandle where
  ticker : String
  openPrice : ℚ
  closePrice : ℚ
  openDt : String
  closeDt : String
  sma : ℚ
  std : ℚ
  avgPrice : ℚ
  closeToOpenRatio : ℚ
deriving DecidableEq, Repr

/-- The per-candle metric computation of `main.py` lines 246-263.  Python
float division by zero raises `ZeroDivisionError`, so `open_price = 0`
aborts with that error (the explicit test models the raise; in `ℚ` itself
division by zero would silently return `0`). -/
def computeCandleMetrics (ticker : String) (c : Candle) :
    Except PyError ProcessedCandle :=
  if c.open_price = 0 then .error .zeroDivision
  else .ok
    { ticker := ticker
      openPrice := c.open_price
      closePrice := c.close_price
      openDt := c.begin_dt
      closeDt := c.end_dt
      sma := (c.open_price + c.close_price) / 2
      std := c.high - c.low
      avgPrice := (c.high + c.low) / 2
      closeToOpenRatio := (c.close_price - c.open_price) / c.open_price }

/-- The answer of one internal `GET /candles/{ticker}` request as the
endpoint observes it: the HTTP status and, for a 200, the parsed
`json()["candles"]["data"]` rows. -/
structure TickerResponse where
  status : Nat
  candles : List Candle
deriving DecidableEq, Repr, Inhabited

/-- The hard-coded ticker list of `main.py` line 192. -/
def tickers : List String := ["SBER", "GAZP", "LKOH", "YNDX", "NVTK"]

/-- Completion events of the concurrent fetches: the tasks are submitted in
list order; completions arrive in the order given by `order` and each event
writes the finished task's result into its own submission slot — the
mechanism by which `asyncio.gather` assembles its result list. -/
def fillSlots {α : Type} (tasks : List α) :
    List Nat → List (Option α) → List (Option α)
  | [], slots => slots
  | i :: rest, slots => fillSlots tasks rest (slots.set i (tasks.get? i))

/-- `await asyncio.gather(*tasks)` (`main.py` line 216): run the slot-filling
protocol for the given completion order and read the slots out in
submission order. -/
def gatherOut {α : Type} [Inhabited α] (tasks : List α) (order : List Nat) :
    List α :=
  (fillSlots tasks order (List.replicate tasks.length none)).map
    (fun o => o.getD default)

/-- The response-checking loop of `main.py` lines 219-224, over
`zip(responses, tickers)`: collect `response.json()` of each 200 answer;
the first non-200 answer raises
`HTTPException(status_code=response.status_code, detail="Failed to fetch data")`. -/
def collectData : List (TickerResponse × String) →
    Except PyError (List (List Candle))
  | [] => .ok []
  | (r, _t) :: rest =>
      if r.status = 200 then
        match collectData rest with
        | .error e => .error e
        | .ok ds => .ok (r.candles :: ds)
      else .error (.httpException r.status "Failed to fetch data")

/-- The inner `for candle in candles` loop of `main.py` lines 236-265 for one
ticker: transform each candle in series order; a raised `ZeroDivisionError`
propagates (aborting the rest of the loop). -/
def transformSeries (t : String) : List Candle →
    Except PyError (List ProcessedCandle)
  | [] => .ok []
  | c :: cs =>
      match computeCandleMetrics t c with
      | .error e => .error e
      | .ok p =>
          match transformSeries t cs with
          | .error e => .error e
          | .ok ps => .ok (p :: ps)

/-- The metric loop of `main.py` lines 232-265 over `zip(tickers, data)`:
every candle of every ticker is transformed and appended to
`all_processed_data`; an exception on any row aborts the whole endpoint
body. -/
def processAllCandles : List (String × List Candle) →
    Except PyError (List ProcessedCandle)
  | [] => .ok []
  | (t, cs) :: rest =>
      match transformSeries t cs with
      | .error e => .error e
      | .ok ps =>
          match processAllCandles rest with
          | .error e => .error e
          | .ok more => .ok (ps ++ more)

/-- One message handed to the Kafka producer.  The value is kept as the
row itself (the source serializes it with `str(data)`); `key` is the
`key=` argument of `producer.produce` — the source passes none. -/
structure KafkaMessage where
  topic : String
  key : Option String
  value : ProcessedCandle
deriving DecidableEq, Repr

/-- The publish loop of `main.py` lines 268-271:
`producer.produce(topic, value=str(data))` for every processed row, with
`topic = "candles"` and no `key=` argument. -/
def kafkaMessages (rows : List ProcessedCandle) : List KafkaMessage :=
  rows.map (fun p => ⟨"candles", none, p⟩)

/-- What a successful `/process_and_analyze` call yields: the JSON body
`{"processed_data": ...}` and the messages pushed to Kafka. -/
structure EndpointOutput where
  processed_data : List ProcessedCandle
  messages : List KafkaMessage
deriving DecidableEq, Repr

/-- `process_and_analyze_data` (`main.py` lines 184-282).  `env` gives the
answer of the internal `GET /candles/{ticker}` call for each ticker;
`order` is the completion order of the five concurrent requests.  Any
exception escaping the body is re-raised by the outer handler as
`HTTPException(status_code=500, detail=str(e))`. -/
def analyzeBody (env : String → TickerResponse) (order : List Nat) :
    Except PyError EndpointOutput :=
  match collectData ((gatherOut (tickers.map env) order).zip tickers) with
  | .error e => .error e
  | .ok ds =>
      match processAllCandles (tickers.zip ds) with
      | .error e => .error e
      | .ok rows => .ok ⟨rows, kafkaMessages rows⟩

/-- The outer `try/except` of `process_and_analyze_data`: any exception
escaping the body is re-raised as
`HTTPException(status_code=500, detail=str(e))` (`main.py` lines 280-282). -/
def process_and_analyze (env : String → TickerResponse) (order : List Nat) :
    Except PyError EndpointOutput :=
  match analyzeBody env order with
  | .ok v => .ok v
  | .error e => .error (.httpException 500 (pyErrStr e))

/-! ## `process_metrics` (`main.py` lines 287-304), the pandas variant -/

/-- A numpy/pandas float result: unlike plain Python floats, dividing a
finite float column by zero does not raise — it yields `inf`, `-inf` or
`nan` (with only a warning). -/
inductive PF
  | num (q : ℚ)
  | inf
  | neginf
  | nan
deriving DecidableEq, Repr

/-- numpy float division of finite values. -/
def pdiv (x y : ℚ) : PF :=
  if y = 0 then (if 0 < x then .inf else if x < 0 then .neginf else .nan)
  else .num (x / y)

/-- One input row of the DataFrame handed to `process_metrics`: the columns
it reads (`open`, `close`, `high`, `low`) plus the ticker column
(`open` is a Lean keyword, hence the `_price` field names). -/
structure InRow where
  ticker : String
  open_price : ℚ
  close_price : ℚ
  high : ℚ
  low : ℚ
deriving DecidableEq, Repr

/-- The same row after `process_metrics` added its four columns.  Only
`close_to_open_ratio` involves a division, so only it can become
non-finite. -/
structure MetricsRow where
  ticker : String
  open_price : ℚ
  close_price : ℚ
  high : ℚ
  low : ℚ
  SMA : ℚ
  STD : ℚ
  avg_price : ℚ
  close_to_open_ratio : PF
deriving DecidableEq, Repr

/-- The column arithmetic of `main.py` lines 289-298 on one row:
`SMA = mean(open, close)`, `STD = high - low`, `avg_price = (high+low)/2`,
`close_to_open_ratio = (close - open) / open` with numpy division. -/
def process_metrics_row (r : InRow) : MetricsRow :=
  { ticker := r.ticker
    open_price := r.open_price
    close_price := r.close_price
    high := r.high
    low := r.low
    SMA := (r.open_price + r.close_price) / 2
    STD := r.high - r.low
    avg_price := (r.high + r.low) / 2
    close_to_open_ratio := pdiv (r.close_price - r.open_price) r.open_price }

/-- `process_metrics(df, ticker)` (`main.py` lines 287-304): add the four
metric columns to every row and return `{ticker: rows}`. -/
def process_metrics (df : List InRow) (ticker : String) :
    String × List MetricsRow :=
  (ticker, df.map process_metrics_row)

/-! ## The ClickHouse read path (`routers/charts.py`) -/

/-- One stored row of the `td.candles` table, restricted to the columns the
chart query selects; `open_dt`/`close_dt`/`landed_at` timestamps are `Nat`
seconds. -/
structure ChRow where
  ticker : String
  open_price : ℚ
  close_price : ℚ
  open_dt : Nat
  close_dt : Nat
  landed_at : Nat
deriving DecidableEq, Repr

/-- The `ORDER BY open_dt DESC` relation: the row placed earlier has the
larger-or-equal `open_dt`. -/
def descOpenDt (a b : ChRow) : Prop := b.open_dt ≤ a.open_dt

instance : DecidableRel descOpenDt := fun a b => Nat.decLe b.open_dt a.open_dt

instance : IsTotal ChRow descOpenDt :=
  ⟨fun a b => le_total b.open_dt a.open_dt⟩

instance : IsTrans ChRow descOpenDt :=
  ⟨fun _ _ _ hab hbc => le_trans hbc hab⟩

/-- `get_candles_chart` (`routers/charts.py` lines 7-30), i.e. the
relational meaning of the SQL it builds:
`SELECT ... FROM td.candles WHERE ticker = {ticker} ORDER BY open_dt DESC LIMIT {limit}`
executed against a table state.  (The source interpolates `ticker` and
`limit` textually into the SQL; the model takes them as plain values, i.e.
the non-injection case.) -/
def get_candles_chart (table : List ChRow) (ticker : String) (limit : Nat) :
    List ChRow :=
  ((table.filter (fun r => r.ticker == ticker)).insertionSort descOpenDt).take
    limit

/-! ## Router registration (`main.py` lines 107-110) -/

/-- An HTTP route: method and path template. -/
structure Route where
  method : String
  path : String
deriving DecidableEq, Repr

/-- Routes of `app/routers/securities.py` (router prefixed `/securities`). -/
def securitiesRoutes : List Route :=
  [⟨"GET", "/securities/{security_id}"⟩,
   ⟨"GET", "/securities/{security_id}/indices"⟩,
   ⟨"GET", "/securities/{security_id}/aggregates"⟩,
   ⟨"GET", "/securities"⟩]

/-- Routes of `app/routers/market.py` (router prefixed `/market`). -/
def marketRoutes : List Route :=
  [⟨"GET", "/market/{market}/{board}"⟩,
   ⟨"GET", "/market/{market}/{board}/{security_id}"⟩,
   ⟨"GET", "/market/{market}/{board}/{security_id}/orderbook"⟩,
   ⟨"GET", "/market/{market}/{board}/{security_id}/trades"⟩,
   ⟨"GET", "/market/engines"⟩,
   ⟨"GET", "/market/engines/{engine}/markets"⟩,
   ⟨"GET", "/market/engines/{engine}/markets/{market}/boards"⟩]

/-- Routes of `app/routers/history.py` (router prefixed `/history`). -/
def historyRoutes : List Route :=
  [⟨"GET", "/history/candles/{security_id}"⟩,
   ⟨"GET", "/history/turnovers"⟩]

/-- Routes of `app/routers/charts.py` (router prefixed `/charts`) — defined
in the repository but see `appRoutes`. -/
def chartsRoutes : List Route :=
  [⟨"GET", "/charts/candles/{ticker}"⟩]

/-- Routes of `app/routers/metrics.py` (router prefixed `/metrics`) — defined
in the repository but see `appRoutes`. -/
def metricsRoutes : List Route :=
  [⟨"POST", "/metrics/update"⟩]

/-- The routes actually served by the application: the three endpoints
declared directly on `app` in `main.py` plus the three routers it includes
(`app.include_router(securities.router)`, `market.router`,
`history.router` — `main.py` lines 108-110; no other `include_router`
call exists). -/
def appRoutes : List Route :=
  [⟨"GET", "/"⟩,
   ⟨"GET", "/candles/{security_id}"⟩,
   ⟨"GET", "/process_and_analyze"⟩]
  ++ securitiesRoutes ++ marketRoutes ++ historyRoutes

/-! ## Traces of repeated `fetch_raw` calls (for the cache claims) -/

/-- Repeated `fetch_raw` calls with `use_cache=True` on one fixed
`(endpoint, params)`: thread the client state through the calls (each call
is a wall-clock time plus the environment's answer to a GET, should one be
issued) and count the network GETs actually issued. -/
def runSameCalls (st : ClientState) (endpoint : String) (params : Params)
    (calls : List (Nat × HttpOutcome)) : ClientState × Nat :=
  calls.foldl
    (fun acc c =>
      ((fetch_raw acc.1 c.1 endpoint params true c.2).state,
        acc.2 + (fetch_raw acc.1 c.1 endpoint params true c.2).networkCalls))
    (st, 0)

/-! ## Helper lemmas about `fetch_raw` -/

/-- A call that finds a live cache entry returns it, touches nothing and
issues no GET. -/
theorem fetch_raw_hit (endpoint : String) (params : Params) (p0 : Payload)
    (t0 t : Nat) (o : HttpOutcome) (ht : t < t0 + ttlSeconds) :
    fetch_raw ⟨[⟨cache_key endpoint params, p0, t0⟩]⟩ t endpoint params true o
      = ⟨.ok p0, ⟨[⟨cache_key endpoint params, p0, t0⟩]⟩, 0, params⟩ := by
  unfold fetch_raw cacheLookup
  simp [entryFresh, ht]

/-- A first call on an empty cache misses, issues one GET and stores the
payload. -/
theorem fetch_raw_firstMiss (endpoint : String) (params : Params)
    (p0 : Payload) (t0 : Nat) :
    fetch_raw ⟨[]⟩ t0 endpoint params true (.success p0)
      = ⟨.ok p0, ⟨[⟨cache_key endpoint params, p0, t0⟩]⟩, 1,
          if hasKey "limit" params then params
          else params ++ [("limit", PVal.i 100)]⟩ := by
  unfold fetch_raw cacheLookup
  simp [fetchMiss, cacheInsert]

/-- A call past the entry's TTL misses, issues one GET and replaces the
entry. -/
theorem fetch_raw_expired (endpoint : String) (params : Params)
    (p0 pexp : Payload) (t0 texp : Nat) (hexp : t0 + ttlSeconds ≤ texp) :
    fetch_raw ⟨[⟨cache_key endpoint params, p0, t0⟩]⟩ texp endpoint params true
        (.success pexp)
      = ⟨.ok pexp, ⟨[⟨cache_key endpoint params, pexp, texp⟩]⟩, 1,
          if hasKey "limit" params then params
          else params ++ [("limit", PVal.i 100)]⟩ := by
  have hnot : ¬ texp < t0 + ttlSeconds := Nat.not_lt.2 hexp
  unfold fetch_raw cacheLookup
  simp [entryFresh, hnot, fetchMiss, cacheInsert]

/-- Once the cache holds the payload, a run of in-window calls leaves both
the state and the GET count untouched. -/
theorem runFold_hits (endpoint : String) (params : Params) (p0 : Payload)
    (t0 : Nat) :
    ∀ (rest : List (Nat × HttpOutcome)) (n : Nat),
      (∀ c ∈ rest, c.1 < t0 + ttlSeconds) →
      rest.foldl
        (fun acc c =>
          ((fetch_raw acc.1 c.1 endpoint params true c.2).state,
            acc.2 + (fetch_raw acc.1 c.1 endpoint params true c.2).networkCalls))
        (⟨[⟨cache_key endpoint params, p0, t0⟩]⟩, n)
      = (⟨[⟨cache_key endpoint params, p0, t0⟩]⟩, n) := by
  intro rest
  induction rest with
  | nil => intro n _; rfl
  | cons c cs ih =>
      intro n h
      have hc : c.1 < t0 + ttlSeconds := h c (List.mem_cons_self c cs)
      simp only [List.foldl_cons]
      rw [fetch_raw_hit endpoint params p0 t0 c.1 c.2 hc]
      simpa using ih n (fun d hd => h d (List.mem_cons_of_mem c hd))

/-! ## Claim theorems: upstream client -/

/-- C3: among repeated `fetch_raw(endpoint, params)` calls with
`use_cache=true` within one 300-second TTL window exactly one network GET
occurs in total; every later in-window call is answered from the cache with
zero network calls; a call past the TTL misses again, issues exactly one
GET and repopulates the cache. -/
theorem C3_cache_correctness (endpoint : String) (params : Params)
    (p0 pexp : Payload) (t0 texp : Nat) (rest : List (Nat × HttpOutcome))
    (hwin : ∀ c ∈ rest, c.1 < t0 + ttlSeconds)
    (hexp : t0 + ttlSeconds ≤ texp) :
    (runSameCalls ⟨[]⟩ endpoint params ((t0, .success p0) :: rest)).2 = 1
    ∧ (runSameCalls ⟨[]⟩ endpoint params ((t0, .success p0) :: rest)).1
        = ⟨[⟨cache_key endpoint params, p0, t0⟩]⟩
    ∧ (∀ c ∈ rest,
        (fetch_raw ⟨[⟨cache_key endpoint params, p0, t0⟩]⟩ c.1 endpoint params
            true c.2).outcome = .ok p0
        ∧ (fetch_raw ⟨[⟨cache_key endpoint params, p0, t0⟩]⟩ c.1 endpoint params
            true c.2).networkCalls = 0)
    ∧ (fetch_raw ⟨[⟨cache_key endpoint params, p0, t0⟩]⟩ texp endpoint params
        true (.success pexp)).networkCalls = 1
    ∧ (fetch_raw ⟨[⟨cache_key endpoint params, p0, t0⟩]⟩ texp endpoint params
        true (.success pexp)).state
        = ⟨[⟨cache_key endpoint params, pexp, texp⟩]⟩
    ∧ (∀ (st : ClientState) (v : Payload) (now : Nat) (o : HttpOutcome),
        cacheLookup now (cache_key endpoint params) st.cache = some v →
        (fetch_raw st now endpoint params true o).outcome = .ok v
        ∧ (fetch_raw st now endpoint params true o).networkCalls = 0
        ∧ (fetch_raw st now endpoint params true o).state = st)
    ∧ (∀ (st : ClientState) (now : Nat) (p : Payload),
        cacheLookup now (cache_key endpoint params) st.cache = none →
        (fetch_raw st now endpoint params true (.success p)).networkCalls = 1
        ∧ cacheLookup now (cache_key endpoint params)
            (fetch_raw st now endpoint params true (.success p)).state.cache
          = some p) := by
  have hrun : runSameCalls ⟨[]⟩ endpoint params ((t0, .success p0) :: rest)
      = (⟨[⟨cache_key endpoint params, p0, t0⟩]⟩, 1) := by
    unfold runSameCalls
    simp only [List.foldl_cons]
    rw [fetch_raw_firstMiss]
    simpa using runFold_hits endpoint params p0 t0 rest 1 hwin
  refine ⟨by rw [hrun], by rw [hrun], ?_, ?_, ?_, ?_, ?_⟩
  · intro c hc
    rw [fetch_raw_hit endpoint params p0 t0 c.1 c.2 (hwin c hc)]
    exact ⟨rfl, rfl⟩
  · rw [fetch_raw_expired endpoint params p0 pexp t0 texp hexp]
  · rw [fetch_raw_expired endpoint params p0 pexp t0 texp hexp]
  · intro st v now o hhit
    have heq : fetch_raw st now endpoint params true o = ⟨.ok v, st, 0, params⟩ := by
      unfold fetch_raw
      simp [hhit]
    rw [heq]
    exact ⟨rfl, rfl, rfl⟩
  · intro st now p hmiss
    have heq : fetch_raw st now endpoint params true (.success p)
        = ⟨.ok p, ⟨cacheInsert now (cache_key endpoint params) p st.cache⟩, 1,
            if hasKey "limit" params then params
            else params ++ [("limit", PVal.i 100)]⟩ := by
      unfold fetch_raw
      simp [hmiss, fetchMiss]
    rw [heq]
    have hfresh : now < now + ttlSeconds :=
      Nat.lt_add_of_pos_right (by decide)
    refine ⟨rfl, ?_⟩
    show cacheLookup now (cache_key endpoint params)
        (cacheInsert now (cache_key endpoint params) p st.cache) = some p
    unfold cacheLookup cacheInsert
    simp [entryFresh, hfresh]

/-- Witness for C3: a concrete trace — a miss at `t=0`, two further calls
inside the window (the second with a would-be failing GET, which is never
issued), a refetch at `t=300`. -/
theorem C3_witness :
    (runSameCalls ⟨[]⟩ "turnovers" []
        ((0, .success "a") :: [(10, .success "b"), (299, .transport "x")])).2 = 1
    ∧ (fetch_raw ⟨[⟨cache_key "turnovers" [], "a", 0⟩]⟩ 300 "turnovers" [] true
        (.success "c")).networkCalls = 1 :=
  ⟨(C3_cache_correctness "turnovers" [] "a" "c" 0 300
      [(10, .success "b"), (299, .transport "x")] (by decide) (by decide)).1,
   (C3_cache_correctness "turnovers" [] "a" "c" 0 300
      [(10, .success "b"), (299, .transport "x")] (by decide) (by decide)).2.2.2.1⟩

/-- C5 (amended): on a cache miss a non-2xx answer makes `fetch_raw` raise a
plain `Exception` whose message embeds the status code and a body excerpt of
at most 200 characters, and a transport failure makes it raise a plain
`Exception` with a different message; both failures are the one bare
`Exception` shape — neither is a typed `UpstreamHTTPError` or
`UpstreamTransportError`, so they are distinguishable only by message text. -/
theorem C5_error_taxonomy (st : ClientState) (now : Nat) (endpoint : String)
    (params : Params) (status : Nat) (body cause : String)
    (hmiss : cacheLookup now (cache_key endpoint params) st.cache = none) :
    (fetch_raw st now endpoint params true (.httpStatus status body)).outcome
      = .error (.exception (httpErrMsg status body))
    ∧ (strTake body 200).length ≤ 200
    ∧ (fetch_raw st now endpoint params true (.transport cause)).outcome
      = .error (.exception (transportErrMsg cause))
    ∧ isBareException (.exception (httpErrMsg status body)) = true
    ∧ isBareException (.exception (transportErrMsg cause)) = true
    ∧ isUpstreamHTTPError (.exception (httpErrMsg status body)) = false
    ∧ isUpstreamTransportError (.exception (transportErrMsg cause)) = false := by
  refine ⟨?_, ?_, ?_, rfl, rfl, rfl, rfl⟩
  · unfold fetch_raw
    simp [hmiss, fetchMiss]
  · have h200 : (body.data.take 200).length ≤ 200 :=
      List.length_take_le 200 body.data
    exact h200
  · unfold fetch_raw
    simp [hmiss, fetchMiss]

/-- Counterexample to C5 as stated: at a concrete non-2xx answer and a
concrete transport failure, `fetch_raw` raises the same bare `Exception`
constructor in both cases — not two distinct subtypes of an `UpstreamError`
a caller could pattern-match on. -/
theorem C5_counterexample :
    (fetch_raw ⟨[]⟩ 0 "securities" [] true (.httpStatus 500 "oops")).outcome
      = .error (.exception "ISS API error: 500 - oops")
    ∧ (fetch_raw ⟨[]⟩ 0 "securities" [] true (.transport "timeout")).outcome
      = .error (.exception "Failed to fetch from ISS: timeout")
    ∧ isUpstreamHTTPError (.exception "ISS API error: 500 - oops") = false
    ∧ isUpstreamTransportError
        (.exception "Failed to fetch from ISS: timeout") = false
    ∧ isBareException (.exception "ISS API error: 500 - oops")
        = isBareException (.exception "Failed to fetch from ISS: timeout") := by
  decide

/-- Witness for C5 (amended) at a concrete 404 with body `"nope"`. -/
theorem C5_witness :
    (fetch_raw ⟨[]⟩ 5 "candles" [] true (.httpStatus 404 "nope")).outcome
      = .error (.exception (httpErrMsg 404 "nope"))
    ∧ (strTake "nope" 200).length ≤ 200 :=
  ⟨(C5_error_taxonomy ⟨[]⟩ 5 "candles" [] 404 "nope" "x" (by decide)).1,
   (C5_error_taxonomy ⟨[]⟩ 5 "candles" [] 404 "nope" "x" (by decide)).2.1⟩

/-- C10: `fetch_raw` mutates its caller's dict — on a cache miss with no
`"limit"` key the caller's `params` ends up with the extra entry
`limit = 100`, while on a cache hit it is returned untouched. -/
theorem C10_params_mutation (st : ClientState) (now : Nat) (endpoint : String)
    (params : Params) (net : HttpOutcome)
    (hno : hasKey "limit" params = false) :
    (cacheLookup now (cache_key endpoint params) st.cache = none →
      (fetch_raw st now endpoint params true net).paramsAfter
        = params ++ [("limit", PVal.i 100)])
    ∧ (∀ v, cacheLookup now (cache_key endpoint params) st.cache = some v →
        (fetch_raw st now endpoint params true net).paramsAfter = params) := by
  constructor
  · intro hmiss
    unfold fetch_raw
    cases net <;> simp [hmiss, fetchMiss, hno]
  · intro v hhit
    unfold fetch_raw
    simp [hhit]

/-- A client state holding a live entry for `("turnovers", [])`, stored at
time 0. -/
def hitStateW : ClientState := ⟨[⟨cache_key "turnovers" [], "cached", 0⟩]⟩

/-- Witness for C10: concrete miss (dict gains `limit = 100`) and concrete
hit (dict untouched). -/
theorem C10_witness :
    (fetch_raw ⟨[]⟩ 0 "turnovers" [] true (.success "fresh")).paramsAfter
      = [] ++ [("limit", PVal.i 100)]
    ∧ (fetch_raw hitStateW 10 "turnovers" [] true (.success "fresh")).paramsAfter
      = [] :=
  ⟨(C10_params_mutation ⟨[]⟩ 0 "turnovers" [] (.success "fresh")
      (by decide)).1 (by decide),
   (C10_params_mutation hitStateW 10 "turnovers" [] (.success "fresh")
      (by decide)).2 "cached" (by decide)⟩

/-! ## The fan-in of `asyncio.gather`: slot filling is order-independent -/

/-- After running the slot-filling protocol, slot `j` holds the `j`-th
task's result if `j` completed (and is a real slot), and is untouched
otherwise — regardless of the order the completions arrived in. -/
theorem fillSlots_getElem? {α : Type} (tasks : List α) :
    ∀ (order : List Nat) (slots : List (Option α)) (j : Nat),
      (fillSlots tasks order slots)[j]?
        = if j ∈ order ∧ j < slots.length then some (tasks.get? j)
          else slots[j]? := by
  intro order
  induction order with
  | nil =>
      intro slots j
      simp [fillSlots]
  | cons i rest ih =>
      intro slots j
      rw [fillSlots, ih]
      by_cases hji : j = i
      · subst hji
        by_cases hjl : j < slots.length
        · by_cases hjr : j ∈ rest
          · rw [if_pos ⟨hjr, by simpa using hjl⟩,
              if_pos ⟨List.mem_cons_self j rest, hjl⟩]
          · rw [if_neg (fun h => hjr h.1), List.getElem?_set, if_pos rfl,
              if_pos hjl, if_pos ⟨List.mem_cons_self j rest, hjl⟩]
        · have hle : slots.length ≤ j := Nat.le_of_not_lt hjl
          rw [if_neg (fun h => hjl (by simpa using h.2)),
            if_neg (fun h => hjl h.2), List.getElem?_set, if_pos rfl,
            if_neg hjl]
          exact (List.getElem?_eq_none hle).symm
      · have hset : (slots.set i (tasks.get? i))[j]? = slots[j]? :=
          List.getElem?_set_ne (fun he => hji he.symm)
        by_cases hjr : j ∈ rest
        · by_cases hjl : j < slots.length
          · rw [if_pos ⟨hjr, by simpa using hjl⟩,
              if_pos ⟨List.mem_cons_of_mem i hjr, hjl⟩]
          · rw [if_neg (fun h => hjl (by simpa using h.2)),
              if_neg (fun h => hjl h.2), hset]
        · have hmem : ¬ j ∈ i :: rest := by
            intro hm
            rcases List.mem_cons.1 hm with h1 | h2
            · exact hji h1
            · exact hjr h2
          rw [if_neg (fun h => hjr h.1), if_neg (fun h => hmem h.1), hset]

/-- `asyncio.gather` fan-in: as long as every task completes exactly once
(the completion order is a permutation of the task indices), the assembled
result list is the task list in submission order — completion order is
irrelevant. -/
theorem gatherOut_perm {α : Type} [Inhabited α] (tasks : List α)
    (order : List Nat) (h : order.Perm (List.range tasks.length)) :
    gatherOut tasks order = tasks := by
  apply List.ext_get?
  intro j
  rw [List.get?_eq_getElem?, List.get?_eq_getElem?]
  unfold gatherOut
  rw [List.getElem?_map, fillSlots_getElem?]
  by_cases hj : j < tasks.length
  · have hmem : j ∈ order := by
      rw [h.mem_iff]
      exact List.mem_range.2 hj
    rw [if_pos ⟨hmem, by simpa using hj⟩]
    cases hx : tasks[j]? with
    | none =>
        rw [List.getElem?_eq_getElem hj] at hx
        cases hx
    | some v =>
        rw [List.get?_eq_getElem?, hx]
        rfl
  · rw [if_neg (fun hh => hj (by simpa using hh.2)), List.getElem?_replicate,
      if_neg hj, List.getElem?_eq_none (Nat.le_of_not_lt hj)]
    rfl

/-! ## Inversion lemmas for the endpoint body -/

/-- One definitional unfolding step of the response loop. -/
theorem collectData_cons (env : String → TickerResponse) (t : String)
    (ts : List String) :
    collectData (((t :: ts).map env).zip (t :: ts))
      = (if (env t).status = 200 then
          match collectData ((ts.map env).zip ts) with
          | .error e => .error e
          | .ok ds => .ok ((env t).candles :: ds)
        else .error (.httpException (env t).status "Failed to fetch data")) :=
  rfl

/-- When every ticker's internal fetch answers 200, the response loop
collects the candle lists in ticker order. -/
theorem collectData_ok (env : String → TickerResponse) :
    ∀ ts : List String, (∀ t ∈ ts, (env t).status = 200) →
      collectData ((ts.map env).zip ts) = .ok (ts.map (fun t => (env t).candles)) := by
  intro ts
  induction ts with
  | nil => intro _; rfl
  | cons t ts ih =>
      intro h
      have ht : (env t).status = 200 := h t (List.mem_cons_self t ts)
      rw [collectData_cons, if_pos ht,
        ih (fun d hd => h d (List.mem_cons_of_mem t hd))]
      rfl

/-- Whatever candle lists the response loop collected, they are the per-
ticker candle lists in ticker order. -/
theorem collectData_ok_inv (env : String → TickerResponse) :
    ∀ (ts : List String) (ds : List (List Candle)),
      collectData ((ts.map env).zip ts) = .ok ds →
      ds = ts.map (fun t => (env t).candles) := by
  intro ts
  induction ts with
  | nil =>
      intro ds h
      cases h
      rfl
  | cons t ts ih =>
      intro ds h
      rw [collectData_cons] at h
      by_cases ht : (env t).status = 200
      · rw [if_pos ht] at h
        cases hrest : collectData ((ts.map env).zip ts) with
        | error e => rw [hrest] at h; cases h
        | ok ds' =>
            rw [hrest] at h
            cases h
            rw [ih ds' hrest]
            rfl
      · rw [if_neg ht] at h
        cases h

/-- The response loop fails with the status of the first non-200 answer in
ticker order (every earlier ticker answered 200), as an `HTTPException`
with detail `"Failed to fetch data"`. -/
theorem collectData_firstFail (env : String → TickerResponse) :
    ∀ (pre : List String) (t0 : String) (suf : List String),
      (∀ t ∈ pre, (env t).status = 200) → (env t0).status ≠ 200 →
      collectData (((pre ++ t0 :: suf).map env).zip (pre ++ t0 :: suf))
        = .error (.httpException (env t0).status "Failed to fetch data") := by
  intro pre
  induction pre with
  | nil =>
      intro t0 suf _ hft
      rw [List.nil_append, collectData_cons, if_neg hft]
  | cons t pre ih =>
      intro t0 suf hpre hft
      have ht : (env t).status = 200 := hpre t (List.mem_cons_self t pre)
      rw [List.cons_append, collectData_cons, if_pos ht,
        ih t0 suf (fun d hd => hpre d (List.mem_cons_of_mem t hd)) hft]

/-- Every row produced for one ticker's series carries that ticker, one row
per input candle, in series order. -/
theorem transformSeries_ok_tickers (t : String) :
    ∀ (cs : List Candle) (ps : List ProcessedCandle),
      transformSeries t cs = .ok ps →
      ps.map (fun p => p.ticker) = cs.map (fun _ => t) := by
  intro cs
  induction cs with
  | nil =>
      intro ps h
      cases h
      rfl
  | cons c cs ih =>
      intro ps h
      rw [transformSeries] at h
      cases hc : computeCandleMetrics t c with
      | error e => rw [hc] at h; cases h
      | ok p =>
          rw [hc] at h
          cases hrest : transformSeries t cs with
          | error e => rw [hrest] at h; cases h
          | ok ps' =>
              rw [hrest] at h
              cases h
              have hp : p.ticker = t := by
                unfold computeCandleMetrics at hc
                by_cases hz : c.open_price = 0
                · rw [if_pos hz] at hc; cases hc
                · rw [if_neg hz] at hc
                  cases hc
                  rfl
              simp [hp, ih ps' hrest]

/-- The processed rows of the whole metric loop are the per-ticker blocks
concatenated in input order, each block carrying its own ticker. -/
theorem processAll_ok_tickers :
    ∀ (pairs : List (String × List Candle)) (rows : List ProcessedCandle),
      processAllCandles pairs = .ok rows →
      rows.map (fun p => p.ticker)
        = (pairs.map (fun pr => pr.2.map (fun _ => pr.1))).flatten := by
  intro pairs
  induction pairs with
  | nil =>
      intro rows h
      cases h
      rfl
  | cons pr rest ih =>
      intro rows h
      obtain ⟨t, cs⟩ := pr
      rw [processAllCandles] at h
      cases hts : transformSeries t cs with
      | error e => rw [hts] at h; cases h
      | ok ps =>
          rw [hts] at h
          cases hrest : processAllCandles rest with
          | error e => rw [hrest] at h; cases h
          | ok more =>
              rw [hrest] at h
              cases h
              simp only [List.map_cons, List.flatten_cons, List.map_append]
              rw [transformSeries_ok_tickers t cs ps hts, ih more hrest]

/-- A successful endpoint body decomposes into a successful collection
phase and a successful metric phase, the messages being exactly the
processed rows. -/
theorem analyzeBody_ok_inv (env : String → TickerResponse) (order : List Nat)
    (out : EndpointOutput) (h : analyzeBody env order = .ok out) :
    ∃ ds rows,
      collectData ((gatherOut (tickers.map env) order).zip tickers) = .ok ds
      ∧ processAllCandles (tickers.zip ds) = .ok rows
      ∧ out = ⟨rows, kafkaMessages rows⟩ := by
  rw [analyzeBody] at h
  cases hcd : collectData ((gatherOut (tickers.map env) order).zip tickers) with
  | error e =>
      rw [hcd] at h
      have h2 : (Except.error e : Except PyError EndpointOutput) = .ok out := h
      cases h2
  | ok ds =>
      rw [hcd] at h
      have h3 : (match processAllCandles (tickers.zip ds) with
          | .error e => (.error e : Except PyError EndpointOutput)
          | .ok rows => .ok ⟨rows, kafkaMessages rows⟩) = .ok out := h
      cases hpa : processAllCandles (tickers.zip ds) with
      | error e =>
          rw [hpa] at h3
          have h4 : (Except.error e : Except PyError EndpointOutput) = .ok out := h3
          cases h4
      | ok rows =>
          rw [hpa] at h3
          have h4 : (Except.ok (⟨rows, kafkaMessages rows⟩ : EndpointOutput) :
              Except PyError EndpointOutput) = .ok out := h3
          cases h4
          exact ⟨ds, rows, rfl, hpa, rfl⟩

/-- A successful endpoint answer is a successful body. -/
theorem process_ok_inv (env : String → TickerResponse) (order : List Nat)
    (out : EndpointOutput)
    (h : process_and_analyze env order = .ok out) :
    ∃ ds rows,
      collectData ((gatherOut (tickers.map env) order).zip tickers) = .ok ds
      ∧ processAllCandles (tickers.zip ds) = .ok rows
      ∧ out = ⟨rows, kafkaMessages rows⟩ := by
  rw [process_and_analyze] at h
  cases hb : analyzeBody env order with
  | error e =>
      rw [hb] at h
      have h2 : (Except.error (PyError.httpException 500 (pyErrStr e)) :
          Except PyError EndpointOutput) = .ok out := h
      cases h2
  | ok v =>
      rw [hb] at h
      have h2 : (Except.ok v : Except PyError EndpointOutput) = .ok out := h
      cases h2
      exact analyzeBody_ok_inv env order out hb

/-- `List.zip` of a list with its own map pairs each element with its
image. -/
theorem zip_map_self {β : Type} (g : String → β) :
    ∀ ts : List String, ts.zip (ts.map g) = ts.map (fun t => (t, g t)) := by
  intro ts
  induction ts with
  | nil => rfl
  | cons t ts ih => simp [ih]

/-! ## Claim theorems: the aggregation endpoint -/

/-- C1 (amended): the aggregation is all-or-nothing — if any ticker's fetch
returns a non-200 status (every ticker before it succeeding), the whole
`/process_and_analyze` call fails with an `HTTPException` (500, wrapping the
first failure's status), regardless of the completion order of the
concurrent fetches; no per-ticker error entry and no `AggregateAllFailedError`
exist. -/
theorem C1_aggregate_all_or_nothing (env : String → TickerResponse)
    (order : List Nat) (horder : order.Perm (List.range tickers.length))
    (pre : List String) (t0 : String) (suf : List String)
    (hsplit : tickers = pre ++ t0 :: suf)
    (hpre : ∀ t ∈ pre, (env t).status = 200)
    (hfail : (env t0).status ≠ 200) :
    process_and_analyze env order
      = .error (.httpException 500
          (toString (env t0).status ++ ": " ++ "Failed to fetch data")) := by
  have hg : gatherOut (tickers.map env) order = tickers.map env :=
    gatherOut_perm _ order (by simpa using horder)
  rw [process_and_analyze, analyzeBody, hg, hsplit,
    collectData_firstFail env pre t0 suf hpre hfail]
  rfl

/-- The per-ticker answers of a run where `GAZP` fails with a 503 and the
other four tickers succeed. -/
def env0 : String → TickerResponse := fun t =>
  if t = "GAZP" then ⟨503, []⟩
  else ⟨200, [⟨2, 3, 4, 1, 10, 5, "2024-01-01", "2024-01-02"⟩]⟩

/-- Counterexample to C1 as stated: with four tickers succeeding and one
failing, the aggregate call does not return partial results — it fails
outright with an `HTTPException`, and the failure is not an
`AggregateAllFailedError`-like all-tickers situation. -/
theorem C1_counterexample :
    (env0 "SBER").status = 200
    ∧ (env0 "GAZP").status = 503
    ∧ process_and_analyze env0 (List.range 5)
        = .error (.httpException 500 "503: Failed to fetch data") := by
  decide

/-- Witness for C1 (amended) at the concrete one-failure run `env0`. -/
theorem C1_witness :
    process_and_analyze env0 (List.range 5)
      = .error (.httpException 500
          (toString (env0 "GAZP").status ++ ": " ++ "Failed to fetch data")) :=
  C1_aggregate_all_or_nothing env0 (List.range 5) (List.Perm.refl _)
    ["SBER"] "GAZP" ["LKOH", "YNDX", "NVTK"] (by decide) (by decide) (by decide)

/-- C2: the endpoint's result is invariant under the completion order of the
five concurrent fetches, and on success the processed rows are grouped in
the caller-supplied ticker order (`SBER, GAZP, LKOH, YNDX, NVTK`), one
block per ticker in request order — never completion order. -/
theorem C2_order_preservation (env : String → TickerResponse)
    (order : List Nat) (horder : order.Perm (List.range tickers.length)) :
    process_and_analyze env order
      = process_and_analyze env (List.range tickers.length)
    ∧ ∀ out, process_and_analyze env order = .ok out →
        out.processed_data.map (fun p => p.ticker)
          = (tickers.map (fun t => (env t).candles.map (fun _ => t))).flatten := by
  have hg : gatherOut (tickers.map env) order = tickers.map env :=
    gatherOut_perm _ order (by simpa using horder)
  have hgid : gatherOut (tickers.map env) (List.range tickers.length)
      = tickers.map env :=
    gatherOut_perm _ _ (by simp)
  constructor
  · rw [process_and_analyze, process_and_analyze, analyzeBody, analyzeBody,
      hg, hgid]
  · intro out hout
    obtain ⟨ds, rows, hcd, hpa, hout_eq⟩ := process_ok_inv env order out hout
    rw [hg] at hcd
    have hds : ds = tickers.map (fun t => (env t).candles) :=
      collectData_ok_inv env tickers ds hcd
    rw [hds] at hpa
    have hmap := processAll_ok_tickers _ rows hpa
    rw [hout_eq]
    show rows.map (fun p => p.ticker) = _
    rw [hmap, zip_map_self (fun t => (env t).candles) tickers, List.map_map]
    rfl

/-- The per-ticker answers of a fully successful run: `SBER` has one candle,
the other tickers answer 200 with empty series. -/
def env9 : String → TickerResponse := fun t =>
  if t = "SBER" then ⟨200, [⟨2, 3, 4, 1, 10, 5, "2024-01-01", "2024-01-02"⟩]⟩
  else ⟨200, []⟩

/-- The single processed row of that run (the metric fields are written as
the arithmetic the code performs; e.g. `sma = (2+3)/2 = 5/2`). -/
def row9 : ProcessedCandle :=
  ⟨"SBER", 2, 3, "2024-01-01", "2024-01-02", (2 + 3) / 2, 4 - 1, (4 + 1) / 2,
   (3 - 2) / 2⟩

/-- Witness for C2 at `env9` under the non-trivial completion order
`[4, 2, 0, 1, 3]`: same result as submission order, rows in ticker order. -/
theorem C2_witness :
    process_and_analyze env9 [4, 2, 0, 1, 3]
      = process_and_analyze env9 (List.range tickers.length)
    ∧ (⟨[row9], [⟨"candles", none, row9⟩]⟩ : EndpointOutput).processed_data.map
        (fun p => p.ticker)
      = (tickers.map (fun t => (env9 t).candles.map (fun _ => t))).flatten :=
  ⟨(C2_order_preservation env9 [4, 2, 0, 1, 3] (by decide)).1,
   (C2_order_preservation env9 [4, 2, 0, 1, 3] (by decide)).2
     ⟨[row9], [⟨"candles", none, row9⟩]⟩ rfl⟩

/-- C9 (amended): every message the endpoint hands to the Kafka producer
goes to topic `"candles"` with NO partition key (`produce` is called without
a `key=` argument), so keyed per-ticker ordering is not established by the
producer call. -/
theorem C9_no_partition_key (env : String → TickerResponse)
    (order : List Nat) (out : EndpointOutput)
    (h : process_and_analyze env order = .ok out) :
    ∀ m ∈ out.messages, m.topic = "candles" ∧ m.key = none := by
  obtain ⟨ds, rows, _, _, hout_eq⟩ := process_ok_inv env order out h
  rw [hout_eq]
  intro m hm
  show m.topic = "candles" ∧ m.key = none
  rcases List.mem_map.1 hm with ⟨p, _, hp⟩
  cases hp
  exact ⟨rfl, rfl⟩

/-- Counterexample to C9 as stated: in the concrete successful run `env9`
the single published message is produced with `key = None`, not with the
row's ticker `"SBER"` as its partition key. -/
theorem C9_counterexample :
    process_and_analyze env9 (List.range 5)
      = .ok ⟨[row9], [⟨"candles", none, row9⟩]⟩
    ∧ (⟨"candles", none, row9⟩ : KafkaMessage).key ≠ some row9.ticker :=
  ⟨rfl, by decide⟩

/-- Witness for C9 (amended) at the concrete run `env9`. -/
theorem C9_witness :
    (⟨"candles", none, row9⟩ : KafkaMessage).topic = "candles"
    ∧ (⟨"candles", none, row9⟩ : KafkaMessage).key = none :=
  C9_no_partition_key env9 (List.range 5)
    ⟨[row9], [⟨"candles", none, row9⟩]⟩ rfl _ (by simp)

/-! ## Claim theorems: metrics transformation -/

/-- C4 (amended): the transformation validates nothing — there is no
`InvalidCandleError`; a candle with `open = 0` raises `ZeroDivisionError`
in the scalar path (a numeric exception, surfaced by the endpoint as a
500); any candle with `open ≠ 0` is processed, however malformed
(`high < low`, negative prices); and in the pandas path `open = 0` yields
an `inf` `close_to_open_ratio` instead of a null sentinel. -/
theorem C4_no_validation (ticker : String) (c : Candle) (r : InRow) :
    (c.open_price = 0 → computeCandleMetrics ticker c = .error .zeroDivision)
    ∧ (c.open_price ≠ 0 → ∃ p, computeCandleMetrics ticker c = .ok p)
    ∧ (r.open_price = 0 → 0 < r.close_price - r.open_price →
        (process_metrics_row r).close_to_open_ratio = PF.inf) := by
  refine ⟨?_, ?_, ?_⟩
  · intro h
    rw [computeCandleMetrics, if_pos h]
  · intro h
    exact ⟨_, by rw [computeCandleMetrics, if_neg h]⟩
  · intro h0 hpos
    show pdiv (r.close_price - r.open_price) r.open_price = PF.inf
    rw [pdiv, if_pos h0, if_pos hpos]

/-- Counterexample to C4 as stated: a candle with `open = 0` raises a
numeric error (`ZeroDivisionError`), not an `InvalidCandleError`; a candle
with `high < low` and a negative price is accepted and transformed rather
than rejected; and the pandas path turns `open = 0` into an `inf` ratio,
not a null sentinel. -/
theorem C4_counterexample :
    computeCandleMetrics "SBER" ⟨0, 3, 4, 1, 10, 5, "b", "e"⟩
      = .error .zeroDivision
    ∧ computeCandleMetrics "SBER" ⟨2, -3, 1, 4, 10, 5, "b", "e"⟩
        = .ok ⟨"SBER", 2, -3, "b", "e", (2 + -3) / 2, 1 - 4, (1 + 4) / 2,
            (-3 - 2) / 2⟩
    ∧ (process_metrics_row ⟨"SBER", 0, 3, 4, 1⟩).close_to_open_ratio
        = PF.inf := by
  refine ⟨rfl, rfl, ?_⟩
  show pdiv ((3 : ℚ) - 0) 0 = PF.inf
  rw [pdiv, if_pos rfl, if_pos (by norm_num)]

/-- Witness for C4 (amended) at a concrete zero-open candle and row. -/
theorem C4_witness :
    computeCandleMetrics "GAZP" ⟨0, 3, 4, 1, 10, 5, "b", "e"⟩
      = .error .zeroDivision
    ∧ (process_metrics_row ⟨"GAZP", 0, 3, 4, 1⟩).close_to_open_ratio
        = PF.inf :=
  ⟨(C4_no_validation "GAZP" ⟨0, 3, 4, 1, 10, 5, "b", "e"⟩
      ⟨"GAZP", 0, 3, 4, 1⟩).1 rfl,
   (C4_no_validation "GAZP" ⟨0, 3, 4, 1, 10, 5, "b", "e"⟩
      ⟨"GAZP", 0, 3, 4, 1⟩).2.2 rfl (by show (0 : ℚ) < 3 - 0; norm_num)⟩

/-- C8: the derived fields equal exactly `sma = (open + close) / 2`,
`std = high − low`, `avg_price = (high + low) / 2`, and
`close_to_open_ratio = (close − open) / open` when `open ≠ 0` — in both the
scalar endpoint path and the pandas `process_metrics` path. -/
theorem C8_metric_formulas (ticker : String) (c : Candle) (r : InRow)
    (h : c.open_price ≠ 0) :
    (∃ p, computeCandleMetrics ticker c = .ok p
      ∧ p.sma = (c.open_price + c.close_price) / 2
      ∧ p.std = c.high - c.low
      ∧ p.avgPrice = (c.high + c.low) / 2
      ∧ p.closeToOpenRatio * c.open_price = c.close_price - c.open_price)
    ∧ (process_metrics_row r).SMA = (r.open_price + r.close_price) / 2
    ∧ (process_metrics_row r).STD = r.high - r.low
    ∧ (process_metrics_row r).avg_price = (r.high + r.low) / 2
    ∧ (r.open_price ≠ 0 →
        (process_metrics_row r).close_to_open_ratio
          = .num ((r.close_price - r.open_price) / r.open_price)) := by
  refine ⟨?_, rfl, rfl, rfl, ?_⟩
  · rw [computeCandleMetrics, if_neg h]
    refine ⟨_, rfl, rfl, rfl, rfl, ?_⟩
    show (c.close_price - c.open_price) / c.open_price * c.open_price
      = c.close_price - c.open_price
    exact div_mul_cancel₀ _ h
  · intro hr
    show pdiv (r.close_price - r.open_price) r.open_price
      = .num ((r.close_price - r.open_price) / r.open_price)
    rw [pdiv, if_neg hr]

/-- Witness for C8 at a concrete candle and row (`open=2, close=3, high=4,
low=1`). -/
theorem C8_witness :
    (∃ p, computeCandleMetrics "SBER" ⟨2, 3, 4, 1, 10, 5, "b", "e"⟩ = .ok p
      ∧ p.sma = ((2 : ℚ) + 3) / 2
      ∧ p.std = (4 : ℚ) - 1
      ∧ p.avgPrice = ((4 : ℚ) + 1) / 2
      ∧ p.closeToOpenRatio * (2 : ℚ) = (3 : ℚ) - 2)
    ∧ (process_metrics_row ⟨"SBER", 2, 3, 4, 1⟩).SMA = ((2 : ℚ) + 3) / 2 :=
  ⟨(C8_metric_formulas "SBER" ⟨2, 3, 4, 1, 10, 5, "b", "e"⟩
      ⟨"SBER", 2, 3, 4, 1⟩ (by decide)).1,
   (C8_metric_formulas "SBER" ⟨2, 3, 4, 1, 10, 5, "b", "e"⟩
      ⟨"SBER", 2, 3, 4, 1⟩ (by decide)).2.1⟩

/-! ## Claim theorems: routes and read path -/

/-- C6 (amended): the served application registers only its three own
endpoints plus the `securities`, `market` and `history` routers; the charts
GET route and the metrics POST route exist in the codebase but are not
included on the app, so neither is reachable. -/
theorem C6_registered_routes :
    (⟨"GET", "/candles/{security_id}"⟩ : Route) ∈ appRoutes
    ∧ (∀ r ∈ securitiesRoutes, r ∈ appRoutes)
    ∧ (∀ r ∈ marketRoutes, r ∈ appRoutes)
    ∧ (∀ r ∈ historyRoutes, r ∈ appRoutes)
    ∧ (∀ r ∈ chartsRoutes, r ∉ appRoutes)
    ∧ (∀ r ∈ metricsRoutes, r ∉ appRoutes) := by decide

/-- Counterexample to C6 as stated: the charts GET route and the metrics
POST route, though defined by their routers, are not among the app's
registered routes. -/
theorem C6_counterexample :
    ((⟨"GET", "/charts/candles/{ticker}"⟩ : Route) ∈ chartsRoutes)
    ∧ ((⟨"GET", "/charts/candles/{ticker}"⟩ : Route) ∉ appRoutes)
    ∧ ((⟨"POST", "/metrics/update"⟩ : Route) ∈ metricsRoutes)
    ∧ ((⟨"POST", "/metrics/update"⟩ : Route) ∉ appRoutes) := by decide

/-- Witness for C6 (amended): one registered route, one unregistered. -/
theorem C6_witness :
    (⟨"GET", "/history/turnovers"⟩ : Route) ∈ appRoutes
    ∧ (⟨"POST", "/metrics/update"⟩ : Route) ∉ appRoutes :=
  ⟨C6_registered_routes.2.2.2.1 _ (by decide),
   C6_registered_routes.2.2.2.2.2 _ (by decide)⟩

/-- C7 (amended): the chart read query returns rows of the requested ticker
only, sorted descending by `open_dt` (non-strictly: ties between stored
rows with equal `open_dt` are possible, since writes are plain inserts), at
most `limit` rows; when the stored period starts for the ticker are pairwise
distinct the order is strictly descending. -/
theorem C7_read_query (table : List ChRow) (tk : String) (limit : Nat) :
    (∀ r ∈ get_candles_chart table tk limit, r.ticker = tk)
    ∧ List.Sorted descOpenDt (get_candles_chart table tk limit)
    ∧ (get_candles_chart table tk limit).length ≤ limit
    ∧ ((table.filter (fun r => r.ticker == tk)).Pairwise
          (fun a b => a.open_dt ≠ b.open_dt) →
        (get_candles_chart table tk limit).Pairwise
          (fun a b => b.open_dt < a.open_dt)) := by
  refine ⟨?_, ?_, ?_, ?_⟩
  · intro r hr
    have hr1 : r ∈ (table.filter
        (fun r => r.ticker == tk)).insertionSort descOpenDt :=
      List.mem_of_mem_take hr
    have hr2 : r ∈ table.filter (fun r => r.ticker == tk) :=
      (List.perm_insertionSort descOpenDt _).mem_iff.1 hr1
    simpa using List.of_mem_filter hr2
  · exact List.Pairwise.sublist (List.take_sublist _ _)
      (List.sorted_insertionSort descOpenDt _)
  · exact List.length_take_le _ _
  · intro hdist
    have hperm := List.perm_insertionSort descOpenDt
      (table.filter (fun r => r.ticker == tk))
    have hne : ((table.filter
        (fun r => r.ticker == tk)).insertionSort descOpenDt).Pairwise
        (fun a b => a.open_dt ≠ b.open_dt) :=
      (hperm.pairwise_iff (fun hab => Ne.symm hab)).2 hdist
    have hsorted := List.sorted_insertionSort descOpenDt
      (table.filter (fun r => r.ticker == tk))
    have hstrict : ((table.filter
        (fun r => r.ticker == tk)).insertionSort descOpenDt).Pairwise
        (fun a b => b.open_dt < a.open_dt) :=
      (hsorted.and hne).imp
        (fun hab => lt_of_le_of_ne hab.1 (fun he => hab.2 he.symm))
    exact List.Pairwise.sublist (List.take_sublist _ _) hstrict

/-- Counterexample to C7 as stated: with two stored rows of the same ticker
sharing `open_dt = 5`, the query returns both and the result is not
strictly descending. -/
theorem C7_counterexample :
    ((get_candles_chart [⟨"SBER", 1, 2, 5, 6, 7⟩, ⟨"SBER", 3, 4, 5, 6, 8⟩]
        "SBER" 2).map (fun r => r.open_dt)) = [5, 5]
    ∧ ¬ (get_candles_chart [⟨"SBER", 1, 2, 5, 6, 7⟩, ⟨"SBER", 3, 4, 5, 6, 8⟩]
        "SBER" 2).Pairwise (fun a b => b.open_dt < a.open_dt) := by
  decide

/-- Witness for C7 (amended): period starts `1 < 2 < 3`, `limit = 2` —
the query returns the rows with starts `[3, 2]`, strictly descending. -/
theorem C7_witness :
    ((get_candles_chart [⟨"SBER", 1, 1, 1, 2, 9⟩, ⟨"SBER", 1, 1, 2, 3, 9⟩,
        ⟨"SBER", 1, 1, 3, 4, 9⟩] "SBER" 2).map (fun r => r.open_dt)) = [3, 2]
    ∧ (get_candles_chart [⟨"SBER", 1, 1, 1, 2, 9⟩, ⟨"SBER", 1, 1, 2, 3, 9⟩,
        ⟨"SBER", 1, 1, 3, 4, 9⟩] "SBER" 2).Pairwise
        (fun a b => b.open_dt < a.open_dt) :=
  ⟨by decide,
   (C7_read_query [⟨"SBER", 1, 1, 1, 2, 9⟩, ⟨"SBER", 1, 1, 2, 3, 9⟩,
      ⟨"SBER", 1, 1, 3, 4, 9⟩] "SBER" 2).2.2.2 (by decide)⟩

end MoexProxy
